import Mathlib

/-!
Shallow embedding of the ypdddns dynamic-DNS updater (src/main.rs).

The program is a one-shot CLI with two subcommands: "set" forces a DNS
record to a given IP, "update" reconciles the record against the caller's
real IP. All outward behaviour is HTTP: one GET to an IP-echo service and
GET/POST calls to the registrar's list/edit endpoints. The embedding makes
the HTTP world explicit: an Env assigns a result to the n-th call of each
endpoint, and a state St counts the calls made and records them in a
trace. Each Rust function becomes a Lean function from St to a result
paired with the updated St; the failure values raised at the bail sites
become constructors of Err following the taxonomy of spec section 7.
Parsing and printing of IP addresses are done by the Rust standard
library (FromStr and Display for std::net::IpAddr), which is outside this
repository; they appear as the Env fields parseIp and render.
-/

namespace Ypdddns

/-- A parsed network address, modelling std::net::IpAddr: either an IPv4
address (four octets) or an IPv6 address (eight segments). Equality is
structural (derived), as for the Rust type. -/
inductive IpAddr where
  | v4 (a b c d : Nat)
  | v6 (a b c d e f g h : Nat)
deriving DecidableEq

/-- One registrar DNS record, modelling struct Record of main.rs:
record_id, content and subdomain as deserialized from a listing
response. -/
structure Record where
  id : Int
  content : String
  subdomain : String
deriving DecidableEq

/-- The tagged union decoded from the registrar listing endpoint
(enum YandexListResponse in find_all_records): the success variant
carries the record list, the error variant carries only a message. -/
inductive YandexListResponse where
  | ok (records : List Record)
  | error (error : String)
deriving DecidableEq

/-- The tagged union decoded from the registrar edit endpoint
(enum YandexUpdateResponse in set_ip). -/
inductive YandexUpdateResponse where
  | ok (record : Record)
  | error (error : String)
deriving DecidableEq

/-- Modelled from the spec: the outcome of one send and json round-trip.
The classification lives in the reqwest library, which is absent from the
repository; spec sections 4.1 and 7 give the taxonomy: transport failure,
non-success HTTP status, a body that fails to decode (malformed JSON or a
field that is not a valid IP), or a decoded value. -/
inductive HttpResult (α : Type) where
  | networkFail
  | httpFail (status : Nat)
  | parseFail
  | ok (value : α)
deriving DecidableEq

/-- The error taxonomy of spec section 7. Each constructor corresponds to
a failure site of main.rs: network, http and parse to the reqwest layer
and to failed FromStr parses; registrar to the two bail sites (their
messages are the fixed prefixes Query failed / Update failed followed by
the embedded registrar message); notFound to the bail in find_record
(carrying the subdomain); config to the bail in main when the domain
argument has no dot. -/
inductive Err where
  | network
  | http (status : Nat)
  | parse
  | registrar (msg : String)
  | notFound (subdomain : String)
  | config
deriving DecidableEq

/-- Modelled from the spec: mapping a round-trip outcome to the error
taxonomy, as performed inside reqwest send and json per spec section
4.1. -/
def httpJson {α : Type} (r : HttpResult α) : Except Err α :=
  match r with
  | .networkFail => .error .network
  | .httpFail status => .error (.http status)
  | .parseFail => .error .parse
  | .ok v => .ok v

/-- One outbound HTTP call, as recorded in the trace: a registrar listing
GET, the ipify GET, or the mutating registrar edit POST with its query
parameters (the edit call is the only mutating one). -/
inductive Call where
  | list (token domain : String)
  | ipify
  | edit (token domain : String) (record_id : Int) (content : String)
deriving DecidableEq

/-- The external world: the result each endpoint returns on its n-th
invocation in this process run, plus the standard-library IP parsing
(FromStr, used on record contents) and printing (Display, used to build
the edit query) functions, which live outside the repository. -/
structure Env where
  listResp : Nat → HttpResult YandexListResponse
  ipifyResp : Nat → HttpResult IpAddr
  editResp : Nat → HttpResult YandexUpdateResponse
  parseIp : String → Option IpAddr
  render : IpAddr → String

/-- The observable I/O state of one process run: how many times each
endpoint has been called, and the ordered trace of calls issued. -/
structure St where
  listCalls : Nat
  ipifyCalls : Nat
  editCalls : Nat
  trace : List Call
deriving DecidableEq

/-- The state at process start: no calls issued yet. -/
def St.init : St :=
  { listCalls := 0, ipifyCalls := 0, editCalls := 0, trace := [] }

/-- Effect of issuing one listing GET. -/
def listStep (token domain : String) (s : St) : St :=
  { s with listCalls := s.listCalls + 1,
           trace := s.trace ++ [Call.list token domain] }

/-- Effect of issuing the ipify GET. -/
def ipifyStep (s : St) : St :=
  { s with ipifyCalls := s.ipifyCalls + 1, trace := s.trace ++ [Call.ipify] }

/-- Effect of issuing one edit POST with the given query parameters. -/
def editStep (token domain : String) (record_id : Int) (content : String)
    (s : St) : St :=
  { s with editCalls := s.editCalls + 1,
           trace := s.trace ++ [Call.edit token domain record_id content] }

/-- fn real_ip: GET the ipify service and decode the body into an
IpAddr (the decoded value already went through FromStr inside serde, so
an invalid address string is a decode failure). -/
def real_ip (env : Env) (s : St) : Except Err IpAddr × St :=
  (httpJson (env.ipifyResp s.ipifyCalls), ipifyStep s)

/-- fn find_all_records: GET the registrar listing endpoint with the
domain as query parameter, decode the tagged union, return the records on
the ok variant and fail with the registrar error message (prefixed by
Query failed) on the error variant. -/
def find_all_records (env : Env) (token domain : String) (s : St) :
    Except Err (List Record) × St :=
  match httpJson (env.listResp s.listCalls) with
  | .error e => (.error e, listStep token domain s)
  | .ok (.ok records) => (.ok records, listStep token domain s)
  | .ok (.error error) =>
      (.error (.registrar ("Query failed: " ++ error)), listStep token domain s)

/-- fn find_record: linear scan of the listing for the first record whose
subdomain equals the query; fails with notFound when no record matches. -/
def find_record (env : Env) (token domain subdomain : String) (s : St) :
    Except Err Record × St :=
  match find_all_records env token domain s with
  | (.error e, s1) => (.error e, s1)
  | (.ok records, s1) =>
    match records.find? (fun record => record.subdomain == subdomain) with
    | some record => (.ok record, s1)
    | none => (.error (.notFound subdomain), s1)

/-- fn current_ip: find the record and parse its content field as an
IpAddr via FromStr; a content that does not parse is a parse error. -/
def current_ip (env : Env) (token domain subdomain : String) (s : St) :
    Except Err IpAddr × St :=
  match find_record env token domain subdomain s with
  | (.error e, s1) => (.error e, s1)
  | (.ok record, s1) =>
    match env.parseIp record.content with
    | some ip => (.ok ip, s1)
    | none => (.error .parse, s1)

/-- fn set_ip: resolve the record id via find_record (its own listing
round-trip), then POST the edit endpoint with query parameters domain,
record_id and the rendered IP; decode the tagged union and fail with the
registrar error message (prefixed by Update failed) on the error
variant. -/
def set_ip (env : Env) (token domain subdomain : String) (ip : IpAddr)
    (s : St) : Except Err Unit × St :=
  match find_record env token domain subdomain s with
  | (.error e, s1) => (.error e, s1)
  | (.ok record, s1) =>
    match httpJson (env.editResp s1.editCalls) with
    | .error e => (.error e, editStep token domain record.id (env.render ip) s1)
    | .ok (.ok _record) =>
        (.ok (), editStep token domain record.id (env.render ip) s1)
    | .ok (.error error) =>
        (.error (.registrar ("Update failed: " ++ error)),
         editStep token domain record.id (env.render ip) s1)

/-- fn update: fetch and parse the current record content, fetch the real
IP, and call set_ip exactly when the two differ structurally. -/
def update (env : Env) (token domain subdomain : String) (s : St) :
    Except Err Unit × St :=
  match current_ip env token domain subdomain s with
  | (.error e, s1) => (.error e, s1)
  | (.ok cur, s1) =>
    match real_ip env s1 with
    | (.error e, s2) => (.error e, s2)
    | (.ok realAddr, s2) =>
      if cur ≠ realAddr then set_ip env token domain subdomain realAddr s2
      else (.ok (), s2)

/-- The parsed command line (enum Options): set carries an already-parsed
IpAddr value since structopt parses it via FromStr before main runs. -/
inductive Options where
  | set (token domain : String) (value : IpAddr)
  | update (token domain : String)

/-- Index of the first dot in a character list, modelling the byte index
returned by str::find on the domain argument (the dot is ASCII, so byte
index and character index agree at the split point). -/
def findDot : List Char → Option Nat
  | [] => none
  | c :: rest => if c = '.' then some 0 else (findDot rest).map (· + 1)

/-- The domain-splitting rule inlined in fn main: slice the domain at the
first dot into the subdomain prefix and the registered-domain remainder;
none when the domain contains no dot. -/
def splitDomain (domain : String) : Option (String × String) :=
  match findDot domain.toList with
  | none => none
  | some i =>
      some (String.mk (domain.toList.take i),
            String.mk (domain.toList.drop (i + 1)))

/-- fn main after argument parsing: split the domain (bailing with the
config error, before any network call, when it has no dot) and dispatch
to set_ip or update. -/
def main (env : Env) (options : Options) (s : St) : Except Err Unit × St :=
  let td : String × String :=
    match options with
    | .set token domain _ => (token, domain)
    | .update token domain => (token, domain)
  match splitDomain td.2 with
  | none => (.error .config, s)
  | some (subdomain, dom) =>
    match options with
    | .set _ _ value => set_ip env td.1 dom subdomain value s
    | .update _ _ => update env td.1 dom subdomain s

/-! Reduction lemmas: how each embedded function evaluates once the
relevant piece of the environment is fixed. -/

lemma find_all_records_ok (env : Env) (t d : String) (s : St)
    (records : List Record)
    (h : env.listResp s.listCalls = HttpResult.ok (.ok records)) :
    find_all_records env t d s = (.ok records, listStep t d s) := by
  simp only [find_all_records, h, httpJson]

lemma find_all_records_errVariant (env : Env) (t d : String) (s : St)
    (msg : String)
    (h : env.listResp s.listCalls = HttpResult.ok (.error msg)) :
    find_all_records env t d s =
      (.error (.registrar ("Query failed: " ++ msg)), listStep t d s) := by
  simp only [find_all_records, h, httpJson]

lemma find_all_records_snd (env : Env) (t d : String) (s : St) :
    (find_all_records env t d s).2 = listStep t d s := by
  unfold find_all_records
  cases h : env.listResp s.listCalls with
  | networkFail => rfl
  | httpFail code => rfl
  | parseFail => rfl
  | ok v => cases v <;> rfl

lemma find_record_found (env : Env) (t d sd : String) (s : St)
    (records : List Record) (r : Record)
    (h1 : env.listResp s.listCalls = HttpResult.ok (.ok records))
    (h2 : records.find? (fun x => x.subdomain == sd) = some r) :
    find_record env t d sd s = (.ok r, listStep t d s) := by
  simp only [find_record, find_all_records, h1, httpJson, h2]

lemma find_record_none (env : Env) (t d sd : String) (s : St)
    (records : List Record)
    (h1 : env.listResp s.listCalls = HttpResult.ok (.ok records))
    (h2 : records.find? (fun x => x.subdomain == sd) = none) :
    find_record env t d sd s = (.error (.notFound sd), listStep t d s) := by
  simp only [find_record, find_all_records, h1, httpJson, h2]

lemma find_record_snd (env : Env) (t d sd : String) (s : St) :
    (find_record env t d sd s).2 = listStep t d s := by
  have h := find_all_records_snd env t d s
  unfold find_record
  split
  next e s1 heq => rw [heq] at h; simpa using h
  next records s1 heq =>
    rw [heq] at h
    simp at h
    split
    · simpa using h
    · simpa using h

lemma find_record_ok_inv (env : Env) (t d sd : String) (s : St) (r : Record)
    (h : (find_record env t d sd s).1 = .ok r) :
    ∃ records, env.listResp s.listCalls = HttpResult.ok (.ok records) ∧
      records.find? (fun x => x.subdomain == sd) = some r := by
  cases hL : env.listResp s.listCalls with
  | networkFail =>
    rw [find_record, find_all_records, hL] at h
    exact absurd h (by simp [httpJson])
  | httpFail code =>
    rw [find_record, find_all_records, hL] at h
    exact absurd h (by simp [httpJson])
  | parseFail =>
    rw [find_record, find_all_records, hL] at h
    exact absurd h (by simp [httpJson])
  | ok v =>
    cases v with
    | error msg =>
      rw [find_record, find_all_records, hL] at h
      exact absurd h (by simp [httpJson])
    | ok records =>
      refine ⟨records, rfl, ?_⟩
      cases hf : records.find? (fun x => x.subdomain == sd) with
      | none =>
        rw [find_record_none env t d sd s records hL hf] at h
        exact absurd h (by simp)
      | some rr =>
        rw [find_record_found env t d sd s records rr hL hf] at h
        simp at h
        rw [h]

lemma current_ip_ok (env : Env) (t d sd : String) (s : St)
    (records : List Record) (r : Record) (cur : IpAddr)
    (h1 : env.listResp s.listCalls = HttpResult.ok (.ok records))
    (h2 : records.find? (fun x => x.subdomain == sd) = some r)
    (h3 : env.parseIp r.content = some cur) :
    current_ip env t d sd s = (.ok cur, listStep t d s) := by
  simp only [current_ip, find_record_found env t d sd s records r h1 h2, h3]

lemma current_ip_parse_none (env : Env) (t d sd : String) (s : St)
    (records : List Record) (r : Record)
    (h1 : env.listResp s.listCalls = HttpResult.ok (.ok records))
    (h2 : records.find? (fun x => x.subdomain == sd) = some r)
    (h3 : env.parseIp r.content = none) :
    current_ip env t d sd s = (.error .parse, listStep t d s) := by
  simp only [current_ip, find_record_found env t d sd s records r h1 h2, h3]

lemma current_ip_snd (env : Env) (t d sd : String) (s : St) :
    (current_ip env t d sd s).2 = listStep t d s := by
  have h := find_record_snd env t d sd s
  unfold current_ip
  split
  next e s1 heq => rw [heq] at h; simpa using h
  next r s1 heq =>
    rw [heq] at h
    simp at h
    split <;> simpa using h

lemma real_ip_ok (env : Env) (s : St) (ip : IpAddr)
    (h : env.ipifyResp s.ipifyCalls = HttpResult.ok ip) :
    real_ip env s = (.ok ip, ipifyStep s) := by
  simp only [real_ip, h, httpJson]

lemma set_ip_ok (env : Env) (t d sd : String) (ip : IpAddr) (s : St)
    (records : List Record) (r rec2 : Record)
    (h1 : env.listResp s.listCalls = HttpResult.ok (.ok records))
    (h2 : records.find? (fun x => x.subdomain == sd) = some r)
    (h3 : env.editResp s.editCalls = HttpResult.ok (.ok rec2)) :
    set_ip env t d sd ip s =
      (.ok (), editStep t d r.id (env.render ip) (listStep t d s)) := by
  have h3' : env.editResp (listStep t d s).editCalls =
      HttpResult.ok (YandexUpdateResponse.ok rec2) := h3
  simp only [set_ip, find_record_found env t d sd s records r h1 h2, h3',
    httpJson]

lemma set_ip_snd_ok (env : Env) (t d sd : String) (ip : IpAddr) (s : St)
    (r : Record) (h : (find_record env t d sd s).1 = .ok r) :
    (set_ip env t d sd ip s).2 =
      editStep t d r.id (env.render ip) (find_record env t d sd s).2 := by
  unfold set_ip
  split
  next e s1 heq => rw [heq] at h; exact absurd h (by simp)
  next rr s1 heq =>
    rw [heq] at h
    simp at h
    subst h
    rw [heq]
    split <;> rfl

lemma set_ip_find_err (env : Env) (t d sd : String) (ip : IpAddr) (s : St)
    (e : Err) (h : (find_record env t d sd s).1 = .error e) :
    set_ip env t d sd ip s = (.error e, (find_record env t d sd s).2) := by
  unfold set_ip
  split
  next e2 s1 heq =>
    rw [heq] at h
    simp at h
    rw [heq, h]
  next rr s1 heq => rw [heq] at h; exact absurd h (by simp)

lemma update_run (env : Env) (t d sd : String) (s : St)
    (records : List Record) (r : Record) (cur realAddr : IpAddr)
    (h1 : env.listResp s.listCalls = HttpResult.ok (.ok records))
    (h2 : records.find? (fun x => x.subdomain == sd) = some r)
    (h3 : env.parseIp r.content = some cur)
    (h4 : env.ipifyResp s.ipifyCalls = HttpResult.ok realAddr) :
    update env t d sd s =
      if cur = realAddr then (.ok (), ipifyStep (listStep t d s))
      else set_ip env t d sd realAddr (ipifyStep (listStep t d s)) := by
  have h4' : real_ip env (listStep t d s) =
      (.ok realAddr, ipifyStep (listStep t d s)) :=
    real_ip_ok env (listStep t d s) realAddr h4
  by_cases hc : cur = realAddr
  · simp [update, current_ip_ok env t d sd s records r cur h1 h2 h3, h4', hc]
  · simp [update, current_ip_ok env t d sd s records r cur h1 h2 h3, h4', hc]

/-- C4: a registrar listing response decoded as the error-tagged variant
makes the directory client fail with the registrar error carrying the
embedded message (appended verbatim to the fixed Query failed prefix) and
no record list is read; the record list is returned exactly on the
success-tagged variant. -/
theorem listing_tagged_union_behaviour (env : Env) (t d : String) (s : St) :
    (∀ msg, env.listResp s.listCalls = HttpResult.ok (.error msg) →
      find_all_records env t d s =
        (.error (.registrar ("Query failed: " ++ msg)), listStep t d s)) ∧
    (∀ records, env.listResp s.listCalls = HttpResult.ok (.ok records) →
      find_all_records env t d s = (.ok records, listStep t d s)) := by
  constructor
  · intro msg h
    exact find_all_records_errVariant env t d s msg h
  · intro records h
    exact find_all_records_ok env t d s records h

/-- Environment for the C4 witness: the first listing call returns the
error-tagged variant, the second the success-tagged variant. -/
def envListTagged : Env :=
  { listResp := fun n =>
      if n = 0 then HttpResult.ok (.error "boom")
      else HttpResult.ok (.ok [{ id := 7, content := "1.2.3.4", subdomain := "home" }])
    ipifyResp := fun _ => HttpResult.networkFail
    editResp := fun _ => HttpResult.networkFail
    parseIp := fun _ => none
    render := fun _ => "" }

/-- Witness for C4 at a concrete environment: both variants. -/
theorem listing_tagged_union_behaviour_witness :
    find_all_records envListTagged "tok" "example.com" St.init =
      (.error (.registrar ("Query failed: " ++ "boom")),
        listStep "tok" "example.com" St.init) ∧
    find_all_records envListTagged "tok" "example.com"
        (listStep "tok" "example.com" St.init) =
      (.ok [{ id := 7, content := "1.2.3.4", subdomain := "home" }],
        listStep "tok" "example.com" (listStep "tok" "example.com" St.init)) := by
  constructor
  · exact (listing_tagged_union_behaviour envListTagged "tok" "example.com"
      St.init).1 "boom" rfl
  · exact (listing_tagged_union_behaviour envListTagged "tok" "example.com"
      (listStep "tok" "example.com" St.init)).2
      [{ id := 7, content := "1.2.3.4", subdomain := "home" }] rfl

lemma findDot_of_first (pre suf : List Char) (h : '.' ∉ pre) :
    findDot (pre ++ '.' :: suf) = some pre.length := by
  induction pre with
  | nil => simp [findDot]
  | cons a tl ih =>
    have ha : ¬(a = '.') := fun hEq => h (hEq ▸ List.mem_cons_self a tl)
    have htl : '.' ∉ tl := fun hm => h (List.mem_cons_of_mem a hm)
    simp [findDot, ha, ih htl]

lemma findDot_of_none (l : List Char) (h : ∀ c ∈ l, c ≠ '.') :
    findDot l = none := by
  induction l with
  | nil => rfl
  | cons a tl ih =>
    simp [findDot, h a (List.mem_cons_self a tl),
      ih fun c hc => h c (List.mem_cons_of_mem a hc)]

lemma take_drop_at_dot (pre suf : List Char) :
    (pre ++ '.' :: suf).take pre.length = pre ∧
    (pre ++ '.' :: suf).drop (pre.length + 1) = suf := by
  induction pre with
  | nil => simp
  | cons a tl ih => simp

lemma splitDomain_eq (dom : String) (pre suf : List Char)
    (h1 : dom.toList = pre ++ '.' :: suf) (h2 : '.' ∉ pre) :
    splitDomain dom = some (String.mk pre, String.mk suf) := by
  unfold splitDomain
  rw [h1, findDot_of_first pre suf h2]
  simp [(take_drop_at_dot pre suf).1, (take_drop_at_dot pre suf).2]

lemma find?_first {α : Type} (p : α → Bool) (pre : List α) (r : α)
    (rest : List α) (hpre : ∀ x ∈ pre, p x = false) (hr : p r = true) :
    (pre ++ r :: rest).find? p = some r := by
  induction pre with
  | nil => simp [List.find?, hr]
  | cons a tl ih =>
    have ha := hpre a (List.mem_cons_self a tl)
    simp [List.find?, ha, ih fun x hx => hpre x (List.mem_cons_of_mem a hx)]

lemma splitDomain_none (dom : String) (h : ∀ c ∈ dom.toList, c ≠ '.') :
    splitDomain dom = none := by
  unfold splitDomain
  rw [findDot_of_none dom.toList h]

/-- C2: the command surface splits a domain argument at its first dot
into subdomain prefix and registered-domain remainder and dispatches both
commands on the split pieces; a domain with no dot makes the invocation
fail with the config error while the I/O state is untouched (no network
call was issued). -/
theorem cli_domain_split (env : Env) (t dom : String) (v : IpAddr) (s : St)
    (pre suf : List Char)
    (h1 : dom.toList = pre ++ '.' :: suf) (h2 : '.' ∉ pre) :
    splitDomain dom = some (String.mk pre, String.mk suf) ∧
    main env (.update t dom) s = update env t (String.mk suf) (String.mk pre) s ∧
    main env (.set t dom v) s = set_ip env t (String.mk suf) (String.mk pre) v s ∧
    ∀ dom2 : String, (∀ c ∈ dom2.toList, c ≠ '.') →
      main env (.update t dom2) s = (.error .config, s) ∧
      main env (.set t dom2 v) s = (.error .config, s) := by
  have hsplit := splitDomain_eq dom pre suf h1 h2
  refine ⟨hsplit, ?_, ?_, ?_⟩
  · simp only [main, hsplit]
  · simp only [main, hsplit]
  · intro dom2 hnd
    have hnone := splitDomain_none dom2 hnd
    exact ⟨by simp only [main, hnone], by simp only [main, hnone]⟩

/-- Environment for the C2 witness; its responses are never consulted
because the witness exercises only the split and the no-dot bailout. -/
def envSplit : Env :=
  { listResp := fun _ => HttpResult.networkFail
    ipifyResp := fun _ => HttpResult.networkFail
    editResp := fun _ => HttpResult.networkFail
    parseIp := fun _ => none
    render := fun _ => "" }

/-- Witness for C2 at concrete inputs: the domain home.example.com splits
into home and example.com, and the dotless domain examplecom fails with
the config error without touching the I/O state. -/
theorem cli_domain_split_witness :
    splitDomain "home.example.com" = some ("home", "example.com") ∧
    main envSplit (.update "tok" "examplecom") St.init =
      (.error .config, St.init) := by
  have h := cli_domain_split envSplit "tok" "home.example.com"
    (IpAddr.v4 1 2 3 4) St.init "home".toList "example.com".toList
    (by decide) (by decide)
  exact ⟨h.1, (h.2.2.2 "examplecom" (by decide)).1⟩

/-- C9: a domain argument beginning with a dot splits into the empty
subdomain label and the remainder; no config error is raised, and main
dispatches update on the empty subdomain. -/
theorem leading_dot_empty_subdomain (env : Env) (t dom : String) (s : St)
    (rest : List Char) (h : dom.toList = '.' :: rest) :
    splitDomain dom = some (String.mk [], String.mk rest) ∧
    main env (.update t dom) s = update env t (String.mk rest) (String.mk []) s := by
  have hsplit := splitDomain_eq dom [] rest (by simpa using h) (by simp)
  exact ⟨hsplit, by simp only [main, hsplit]⟩

/-- Witness for C9 at the concrete domain .example.com: the split
succeeds with the empty subdomain and main reaches update (here the
update itself fails on the network, showing a network call was made
rather than a config bailout). -/
theorem leading_dot_empty_subdomain_witness :
    splitDomain ".example.com" = some ("", "example.com") ∧
    main envSplit (.update "tok" ".example.com") St.init =
      update envSplit "tok" "example.com" "" St.init := by
  have h := leading_dot_empty_subdomain envSplit "tok" ".example.com"
    St.init "example.com".toList (by decide)
  exact ⟨h.1, h.2⟩

/-- C3: given a decoded record list, find_record returns the first record
in listing order whose subdomain exactly equals the query, and fails with
the notFound error when no record of the list (in particular when the
list is empty) has a subdomain equal to the query. -/
theorem find_record_first_match (env : Env) (t d sd : String) (s : St)
    (records : List Record)
    (h1 : env.listResp s.listCalls = HttpResult.ok (.ok records)) :
    (∀ pre r rest, records = pre ++ r :: rest →
      (∀ x ∈ pre, x.subdomain ≠ sd) → r.subdomain = sd →
      find_record env t d sd s = (.ok r, listStep t d s)) ∧
    ((∀ x ∈ records, x.subdomain ≠ sd) →
      find_record env t d sd s = (.error (.notFound sd), listStep t d s)) := by
  constructor
  · intro pre r rest hsplit hpre hr
    apply find_record_found env t d sd s records r h1
    rw [hsplit]
    apply find?_first
    · intro x hx
      simpa using hpre x hx
    · simpa using hr
  · intro hall
    apply find_record_none env t d sd s records h1
    rw [List.find?_eq_none]
    intro x hx
    simpa using hall x hx

/-- Environment for the C3 witness: one listing whose first record
matches the query only up to letter case and whose second and third
records match exactly. -/
def envFirstMatch : Env :=
  { listResp := fun _ => HttpResult.ok (.ok
      [{ id := 1, content := "9.9.9.9", subdomain := "HOME" },
       { id := 2, content := "1.2.3.4", subdomain := "home" },
       { id := 3, content := "5.6.7.8", subdomain := "home" }])
    ipifyResp := fun _ => HttpResult.networkFail
    editResp := fun _ => HttpResult.networkFail
    parseIp := fun _ => none
    render := fun _ => "" }

/-- Witness for C3: the scan is case-sensitive (it skips the HOME record)
and first-match (it returns record 2, not record 3); querying a subdomain
held by no record fails with notFound. -/
theorem find_record_first_match_witness :
    find_record envFirstMatch "tok" "example.com" "home" St.init =
      (.ok { id := 2, content := "1.2.3.4", subdomain := "home" },
        listStep "tok" "example.com" St.init) ∧
    find_record envFirstMatch "tok" "example.com" "other" St.init =
      (.error (.notFound "other"), listStep "tok" "example.com" St.init) := by
  constructor
  · exact (find_record_first_match envFirstMatch "tok" "example.com" "home"
      St.init _ rfl).1
      [{ id := 1, content := "9.9.9.9", subdomain := "HOME" }]
      { id := 2, content := "1.2.3.4", subdomain := "home" }
      [{ id := 3, content := "5.6.7.8", subdomain := "home" }]
      rfl (by decide) rfl
  · exact (find_record_first_match envFirstMatch "tok" "example.com" "other"
      St.init _ rfl).2 (by decide)

/-- C6: the IP resolver fails with the network error on transport
failure, with the http error (carrying the status) on a non-success
status, with the parse error when the body is malformed JSON or not a
valid IP, and returns the decoded address otherwise. The classification
of the round-trip outcome is the reqwest layer modelled from the spec in
HttpResult and httpJson. -/
theorem real_ip_error_taxonomy (env : Env) (s : St) :
    (env.ipifyResp s.ipifyCalls = HttpResult.networkFail →
      real_ip env s = (.error .network, ipifyStep s)) ∧
    (∀ code, env.ipifyResp s.ipifyCalls = HttpResult.httpFail code →
      real_ip env s = (.error (.http code), ipifyStep s)) ∧
    (env.ipifyResp s.ipifyCalls = HttpResult.parseFail →
      real_ip env s = (.error .parse, ipifyStep s)) ∧
    (∀ ip, env.ipifyResp s.ipifyCalls = HttpResult.ok ip →
      real_ip env s = (.ok ip, ipifyStep s)) := by
  refine ⟨?_, ?_, ?_, ?_⟩
  · intro h; simp only [real_ip, h, httpJson]
  · intro code h; simp only [real_ip, h, httpJson]
  · intro h; simp only [real_ip, h, httpJson]
  · intro ip h; simp only [real_ip, h, httpJson]

/-- Environment family for the C6 witness: the n-th resolver call runs
into each of the four outcomes in turn. -/
def envIpify : Env :=
  { listResp := fun _ => HttpResult.networkFail
    ipifyResp := fun n =>
      if n = 0 then HttpResult.networkFail
      else if n = 1 then HttpResult.httpFail 500
      else if n = 2 then HttpResult.parseFail
      else HttpResult.ok (IpAddr.v4 10 0 0 1)
    editResp := fun _ => HttpResult.networkFail
    parseIp := fun _ => none
    render := fun _ => "" }

/-- Witness for C6 at concrete states: all four outcome classes. -/
theorem real_ip_error_taxonomy_witness :
    real_ip envIpify St.init = (.error .network, ipifyStep St.init) ∧
    real_ip envIpify (ipifyStep St.init) =
      (.error (.http 500), ipifyStep (ipifyStep St.init)) ∧
    real_ip envIpify (ipifyStep (ipifyStep St.init)) =
      (.error .parse, ipifyStep (ipifyStep (ipifyStep St.init))) ∧
    real_ip envIpify (ipifyStep (ipifyStep (ipifyStep St.init))) =
      (.ok (IpAddr.v4 10 0 0 1),
        ipifyStep (ipifyStep (ipifyStep (ipifyStep St.init)))) := by
  refine ⟨?_, ?_, ?_, ?_⟩
  · exact (real_ip_error_taxonomy envIpify St.init).1 rfl
  · exact (real_ip_error_taxonomy envIpify (ipifyStep St.init)).2.1 500 rfl
  · exact (real_ip_error_taxonomy envIpify
      (ipifyStep (ipifyStep St.init))).2.2.1 rfl
  · exact (real_ip_error_taxonomy envIpify
      (ipifyStep (ipifyStep (ipifyStep St.init)))).2.2.2 (IpAddr.v4 10 0 0 1) rfl

/-- A concrete record used by several concrete environments below. -/
def recHomeA : Record := { id := 7, content := "1.2.3.4", subdomain := "home" }

/-- Environment for the C1 counterexample: the first listing succeeds and
the parsed current address differs from the resolver's address, but the
second listing (the one the mutator performs itself) fails on the
network, so no edit call ever goes out. -/
def envSecondLookupDown : Env :=
  { listResp := fun n =>
      if n = 0 then HttpResult.ok (.ok [recHomeA]) else HttpResult.networkFail
    ipifyResp := fun _ => HttpResult.ok (IpAddr.v4 1 2 3 5)
    editResp := fun _ => HttpResult.networkFail
    parseIp := fun _ => some (IpAddr.v4 1 2 3 4)
    render := fun _ => "1.2.3.5" }

/-- C1 counterexample: a run of update in which the address parsed from
the current record content (1.2.3.4) is structurally unequal to the
resolver's address (1.2.3.5), yet no mutating edit call is issued — the
mutator's own record lookup fails first, and the run ends with the
network error after two listing calls and zero edit calls. This refutes
the claimed if-and-only-if for arbitrary runs. -/
theorem update_mutates_iff_counterexample :
    envSecondLookupDown.parseIp recHomeA.content = some (IpAddr.v4 1 2 3 4) ∧
    envSecondLookupDown.ipifyResp 0 = HttpResult.ok (IpAddr.v4 1 2 3 5) ∧
    IpAddr.v4 1 2 3 4 ≠ IpAddr.v4 1 2 3 5 ∧
    update envSecondLookupDown "tok" "example.com" "home" St.init =
      (.error .network,
        { listCalls := 2, ipifyCalls := 1, editCalls := 0,
          trace := [Call.list "tok" "example.com", Call.ipify,
            Call.list "tok" "example.com"] }) := by
  refine ⟨rfl, rfl, by decide, ?_⟩
  rfl

/-- C1 (amended): for every update run whose reconcile step parses the
current record content and obtains the resolver address: if the two are
structurally equal, update issues no mutating call and returns success;
if they are unequal, a mutating edit call is issued if and only if the
mutator's own second record lookup succeeds (decodes a record list
containing a record for the subdomain). -/
theorem update_reconcile_no_op_iff (env : Env) (t d sd : String) (s : St)
    (records : List Record) (r : Record) (cur realAddr : IpAddr)
    (h1 : env.listResp s.listCalls = HttpResult.ok (.ok records))
    (h2 : records.find? (fun x => x.subdomain == sd) = some r)
    (h3 : env.parseIp r.content = some cur)
    (h4 : env.ipifyResp s.ipifyCalls = HttpResult.ok realAddr) :
    (cur = realAddr →
      update env t d sd s = (.ok (), ipifyStep (listStep t d s)) ∧
      (update env t d sd s).2.editCalls = s.editCalls) ∧
    (cur ≠ realAddr →
      ((update env t d sd s).2.editCalls = s.editCalls + 1 ↔
        ∃ records2 r2,
          env.listResp (s.listCalls + 1) = HttpResult.ok (.ok records2) ∧
          records2.find? (fun x => x.subdomain == sd) = some r2)) := by
  have hrun := update_run env t d sd s records r cur realAddr h1 h2 h3 h4
  constructor
  · intro hc
    rw [hrun, if_pos hc]
    exact ⟨rfl, rfl⟩
  · intro hc
    rw [hrun, if_neg hc]
    constructor
    · intro hEd
      cases hfro : (find_record env t d sd (ipifyStep (listStep t d s))).1 with
      | error e =>
        rw [set_ip_find_err env t d sd realAddr (ipifyStep (listStep t d s))
          e hfro] at hEd
        rw [show ((Except.error e : Except Err Unit),
            (find_record env t d sd (ipifyStep (listStep t d s))).2).2 =
            (find_record env t d sd (ipifyStep (listStep t d s))).2
          from rfl, find_record_snd] at hEd
        simp [listStep, ipifyStep] at hEd
      | ok r2 =>
        obtain ⟨records2, hA, hB⟩ :=
          find_record_ok_inv env t d sd (ipifyStep (listStep t d s)) r2 hfro
        exact ⟨records2, r2, hA, hB⟩
    · rintro ⟨records2, r2, hA, hB⟩
      have hfr : find_record env t d sd (ipifyStep (listStep t d s)) =
          (.ok r2, listStep t d (ipifyStep (listStep t d s))) :=
        find_record_found env t d sd (ipifyStep (listStep t d s))
          records2 r2 hA hB
      have hsnd := set_ip_snd_ok env t d sd realAddr
        (ipifyStep (listStep t d s)) r2 (by rw [hfr])
      rw [hsnd, hfr]
      rfl

/-- Environment for the C1 witness: current record content parses to the
same address the resolver returns, so update is a no-op. -/
def envAddressesEqual : Env :=
  { listResp := fun _ => HttpResult.ok (.ok [recHomeA])
    ipifyResp := fun _ => HttpResult.ok (IpAddr.v4 1 2 3 4)
    editResp := fun _ => HttpResult.networkFail
    parseIp := fun _ => some (IpAddr.v4 1 2 3 4)
    render := fun _ => "1.2.3.4" }

/-- Witness for the amended C1 at a concrete environment where the two
addresses are structurally equal: update succeeds with zero edit calls. -/
theorem update_reconcile_no_op_iff_witness :
    update envAddressesEqual "tok" "example.com" "home" St.init =
      (.ok (), ipifyStep (listStep "tok" "example.com" St.init)) ∧
    (update envAddressesEqual "tok" "example.com" "home" St.init).2.editCalls =
      0 := by
  exact (update_reconcile_no_op_iff envAddressesEqual "tok" "example.com"
    "home" St.init [recHomeA] recHomeA (IpAddr.v4 1 2 3 4) (IpAddr.v4 1 2 3 4)
    rfl (by decide) rfl rfl).1 rfl

/-- C5: a successful run of the set command performs one listing lookup
(to resolve the record id) followed by exactly one mutating edit call
whose query parameters are the registered domain, the looked-up record
id and the rendered new IP; the reconcile comparison is skipped — no
resolver call is made — and nothing depends on the record's current
content. -/
theorem set_command_single_edit (env : Env) (t dom : String) (v : IpAddr)
    (s : St) (pre suf : List Char) (records : List Record) (r rec2 : Record)
    (h1 : dom.toList = pre ++ '.' :: suf) (h2 : '.' ∉ pre)
    (h3 : env.listResp s.listCalls = HttpResult.ok (.ok records))
    (h4 : records.find? (fun x => x.subdomain == String.mk pre) = some r)
    (h5 : env.editResp s.editCalls = HttpResult.ok (.ok rec2)) :
    main env (.set t dom v) s =
      (.ok (), editStep t (String.mk suf) r.id (env.render v)
        (listStep t (String.mk suf) s)) ∧
    (main env (.set t dom v) s).2.trace = s.trace ++
      [Call.list t (String.mk suf),
       Call.edit t (String.mk suf) r.id (env.render v)] ∧
    (main env (.set t dom v) s).2.listCalls = s.listCalls + 1 ∧
    (main env (.set t dom v) s).2.editCalls = s.editCalls + 1 ∧
    (main env (.set t dom v) s).2.ipifyCalls = s.ipifyCalls := by
  have hsplit := splitDomain_eq dom pre suf h1 h2
  have hmain : main env (.set t dom v) s =
      set_ip env t (String.mk suf) (String.mk pre) v s := by
    simp only [main, hsplit]
  have hset := set_ip_ok env t (String.mk suf) (String.mk pre) v s records
    r rec2 h3 h4 h5
  rw [hmain, hset]
  refine ⟨rfl, ?_, rfl, rfl, rfl⟩
  simp [editStep, listStep]

/-- Environment for the C5 witness: one record whose content is not even
an IP address; the edit endpoint accepts the write. -/
def envSetCmd : Env :=
  { listResp := fun _ => HttpResult.ok
      (.ok [{ id := 7, content := "whatever", subdomain := "home" }])
    ipifyResp := fun _ => HttpResult.networkFail
    editResp := fun _ => HttpResult.ok (.ok recHomeA)
    parseIp := fun _ => none
    render := fun _ => "8.8.8.8" }

/-- Witness for C5: running set on home.example.com issues the listing
call then exactly one edit call with record id 7 and content 8.8.8.8,
and no resolver call, although the record's prior content is not an IP. -/
theorem set_command_single_edit_witness :
    main envSetCmd (.set "tok" "home.example.com" (IpAddr.v4 8 8 8 8)) St.init =
      (.ok (), editStep "tok" "example.com" 7 "8.8.8.8"
        (listStep "tok" "example.com" St.init)) ∧
    (main envSetCmd (.set "tok" "home.example.com" (IpAddr.v4 8 8 8 8))
        St.init).2.trace =
      [Call.list "tok" "example.com", Call.edit "tok" "example.com" 7 "8.8.8.8"] := by
  have h := set_command_single_edit envSetCmd "tok" "home.example.com"
    (IpAddr.v4 8 8 8 8) St.init "home".toList "example.com".toList
    [{ id := 7, content := "whatever", subdomain := "home" }]
    { id := 7, content := "whatever", subdomain := "home" } recHomeA
    (by decide) (by decide) rfl (by decide) rfl
  exact ⟨h.1, h.2.1⟩

/-- C7: an error in fetching or parsing the current record, or in
fetching the real IP, aborts the update run immediately with that error
and with the edit-call count unchanged (zero mutating calls issued, state
unchanged on error); the error value is the run's result, which the
top-level handler turns into a non-zero exit. -/
theorem update_error_aborts_unmutated (env : Env) (t d sd : String) (s : St) :
    (∀ e s1, current_ip env t d sd s = (.error e, s1) →
      update env t d sd s = (.error e, s1) ∧ s1.editCalls = s.editCalls) ∧
    (∀ cur s1 e s2, current_ip env t d sd s = (.ok cur, s1) →
      real_ip env s1 = (.error e, s2) →
      update env t d sd s = (.error e, s2) ∧ s2.editCalls = s.editCalls) := by
  constructor
  · intro e s1 h
    have hs1 : s1 = listStep t d s := by
      have h2 := congrArg Prod.snd h
      rw [current_ip_snd] at h2
      exact h2.symm
    refine ⟨by simp only [update, h], ?_⟩
    rw [hs1]
    rfl
  · intro cur s1 e s2 h hr
    have hs1 : s1 = listStep t d s := by
      have h2 := congrArg Prod.snd h
      rw [current_ip_snd] at h2
      exact h2.symm
    have hs2 : s2 = ipifyStep s1 := by
      have h2 := congrArg Prod.snd hr
      simp only [real_ip] at h2
      exact h2.symm
    refine ⟨by simp only [update, h, hr], ?_⟩
    rw [hs2, hs1]
    rfl

/-- Witness for C7: with the registrar unreachable, update aborts with
the network error after the single listing attempt and zero edit calls. -/
theorem update_error_aborts_unmutated_witness :
    update envSplit "tok" "example.com" "home" St.init =
      (.error .network, listStep "tok" "example.com" St.init) ∧
    (listStep "tok" "example.com" St.init).editCalls = 0 := by
  exact (update_error_aborts_unmutated envSplit "tok" "example.com" "home"
    St.init).1 .network (listStep "tok" "example.com" St.init) rfl

/-- C8: when update decides to mutate, the record id sent to the edit
endpoint comes from a second, independent listing performed inside the
mutator: the run makes exactly two listing round-trips and the edit call
carries the id of whichever first-matching record the second listing
returned. -/
theorem update_second_lookup_id (env : Env) (t d sd : String) (s : St)
    (records : List Record) (r : Record) (cur realAddr : IpAddr)
    (records2 : List Record) (r2 : Record)
    (h1 : env.listResp s.listCalls = HttpResult.ok (.ok records))
    (h2 : records.find? (fun x => x.subdomain == sd) = some r)
    (h3 : env.parseIp r.content = some cur)
    (h4 : env.ipifyResp s.ipifyCalls = HttpResult.ok realAddr)
    (h5 : cur ≠ realAddr)
    (h6 : env.listResp (s.listCalls + 1) = HttpResult.ok (.ok records2))
    (h7 : records2.find? (fun x => x.subdomain == sd) = some r2) :
    (update env t d sd s).2.listCalls = s.listCalls + 2 ∧
    (update env t d sd s).2.trace = s.trace ++
      [Call.list t d, Call.ipify, Call.list t d,
       Call.edit t d r2.id (env.render realAddr)] := by
  have hrun := update_run env t d sd s records r cur realAddr h1 h2 h3 h4
  rw [if_neg h5] at hrun
  have hfr : find_record env t d sd (ipifyStep (listStep t d s)) =
      (.ok r2, listStep t d (ipifyStep (listStep t d s))) :=
    find_record_found env t d sd (ipifyStep (listStep t d s)) records2 r2 h6 h7
  have hsnd := set_ip_snd_ok env t d sd realAddr (ipifyStep (listStep t d s))
    r2 (by rw [hfr])
  rw [hrun, hsnd, hfr]
  refine ⟨rfl, ?_⟩
  simp [editStep, listStep, ipifyStep]

/-- Environment for the C8 witness: the first listing returns record id 7
(content 1.2.3.4), the second listing returns record id 9; the resolver
returns a different address, so update mutates. -/
def envTwoListings : Env :=
  { listResp := fun n =>
      if n = 0 then HttpResult.ok (.ok [recHomeA])
      else HttpResult.ok (.ok [{ id := 9, content := "stale", subdomain := "home" }])
    ipifyResp := fun _ => HttpResult.ok (IpAddr.v4 1 2 3 5)
    editResp := fun _ => HttpResult.ok (.ok recHomeA)
    parseIp := fun _ => some (IpAddr.v4 1 2 3 4)
    render := fun _ => "1.2.3.5" }

/-- Witness for C8: the run makes two listing calls and its edit call
carries id 9 (from the second listing), not id 7 (from the first). -/
theorem update_second_lookup_id_witness :
    (update envTwoListings "tok" "example.com" "home" St.init).2.listCalls = 2 ∧
    (update envTwoListings "tok" "example.com" "home" St.init).2.trace =
      [Call.list "tok" "example.com", Call.ipify, Call.list "tok" "example.com",
       Call.edit "tok" "example.com" 9 "1.2.3.5"] := by
  have h := update_second_lookup_id envTwoListings "tok" "example.com" "home"
    St.init [recHomeA] recHomeA (IpAddr.v4 1 2 3 4) (IpAddr.v4 1 2 3 5)
    [{ id := 9, content := "stale", subdomain := "home" }]
    { id := 9, content := "stale", subdomain := "home" }
    rfl (by decide) rfl rfl (by decide) rfl (by decide)
  exact ⟨h.1, h.2⟩

/-- C10: set never parses the record's current content — it reads only
the id — so set succeeds on a record whose content is not a valid IP
address, while update on the very same environment fails with the parse
error in its first step (before any resolver or edit call). -/
theorem set_skips_content_parse (env : Env) (t d sd : String) (s : St)
    (records : List Record) (r rec2 : Record) (v : IpAddr)
    (h1 : env.listResp s.listCalls = HttpResult.ok (.ok records))
    (h2 : records.find? (fun x => x.subdomain == sd) = some r)
    (h3 : env.parseIp r.content = none)
    (h4 : env.editResp s.editCalls = HttpResult.ok (.ok rec2)) :
    set_ip env t d sd v s =
      (.ok (), editStep t d r.id (env.render v) (listStep t d s)) ∧
    update env t d sd s = (.error .parse, listStep t d s) := by
  refine ⟨set_ip_ok env t d sd v s records r rec2 h1 h2 h4, ?_⟩
  simp only [update, current_ip_parse_none env t d sd s records r h1 h2 h3]

/-- Environment for the C10 witness: the record's content is not an IP
address, and every parse of it fails; the edit endpoint accepts writes. -/
def envBadContent : Env :=
  { listResp := fun _ => HttpResult.ok
      (.ok [{ id := 7, content := "not-an-ip", subdomain := "home" }])
    ipifyResp := fun _ => HttpResult.ok (IpAddr.v4 1 2 3 5)
    editResp := fun _ => HttpResult.ok (.ok recHomeA)
    parseIp := fun _ => none
    render := fun _ => "8.8.8.8" }

/-- Witness for C10: on the same environment, set succeeds with one edit
call while update fails with the parse error after only the listing. -/
theorem set_skips_content_parse_witness :
    set_ip envBadContent "tok" "example.com" "home" (IpAddr.v4 8 8 8 8)
        St.init =
      (.ok (), editStep "tok" "example.com" 7 "8.8.8.8"
        (listStep "tok" "example.com" St.init)) ∧
    update envBadContent "tok" "example.com" "home" St.init =
      (.error .parse, listStep "tok" "example.com" St.init) := by
  exact set_skips_content_parse envBadContent "tok" "example.com" "home"
    St.init [{ id := 7, content := "not-an-ip", subdomain := "home" }]
    { id := 7, content := "not-an-ip", subdomain := "home" } recHomeA
    (IpAddr.v4 8 8 8 8) rfl (by decide) rfl rfl

end Ypdddns
